import Mathlib

/-!
Shallow embedding of `main.py` (claim resubmission ingestion pipeline):
Python string helpers, a naive-datetime model, the date parser, the denial
classifier, the eligibility rule engine, the two source normalizers and the
pipeline orchestrator, followed by theorems about the claims of the spec.
-/

namespace ClaimPipeline

/- ### Python string primitives -/

/-- Characters stripped by Python `str.strip()` with no argument
(space, tab, newline, carriage return, vertical tab, form feed). -/
def pyIsSpace (c : Char) : Bool :=
  c.toNat = 32 || c.toNat = 9 || c.toNat = 10 || c.toNat = 13 || c.toNat = 11 || c.toNat = 12

/-- Python `str.lower()` on one character, restricted to ASCII case mapping
(the repository's reason texts and table keys are ASCII). -/
def lowerChar (c : Char) : Char :=
  if 65 ≤ c.toNat ∧ c.toNat ≤ 90 then Char.ofNat (c.toNat + 32) else c

/-- Python `str.lower()`. -/
def pyLower (s : String) : String := ⟨s.data.map lowerChar⟩

/-- Strip leading and trailing whitespace from a character list
(the list-level body of `str.strip()`). -/
def stripL (l : List Char) : List Char :=
  (((l.dropWhile pyIsSpace).reverse.dropWhile pyIsSpace)).reverse

/-- Python `str.strip()`. -/
def pyStrip (s : String) : String := ⟨stripL s.data⟩

/-- Composition `reason.lower().strip()` as used throughout the source. -/
def pyLowerStrip (s : String) : String := ⟨stripL (s.data.map lowerChar)⟩

/-- Does `n` occur as a contiguous block starting at the head of `hay`? -/
def listStarts : List Char → List Char → Bool
  | [], _ => true
  | _ :: _, [] => false
  | a :: as, b :: bs => a = b && listStarts as bs

/-- Python substring test `n in hay` for character lists. -/
def listIn (n : List Char) : List Char → Bool
  | [] => n.isEmpty
  | h :: t => listStarts n (h :: t) || listIn n t

/- ### Naive datetime model -/

/-- A naive Python `datetime` (no timezone), as produced by
`datetime.strptime`/`datetime.fromisoformat` in this pipeline. -/
structure Datetime where
  year : Int
  month : Nat
  day : Nat
  hour : Nat
  minute : Nat
  second : Nat
deriving DecidableEq, Repr

/-- Proleptic Gregorian day number (days since 1970-01-01),
the standard civil-calendar day count backing `datetime` subtraction. -/
def daysFromCivil (y : Int) (m d : Nat) : Int :=
  let y' : Int := if m ≤ 2 then y - 1 else y
  let era : Int := Int.fdiv (if 0 ≤ y' then y' else y' - 399) 400
  let yoe : Int := y' - era * 400
  let mp : Int := if 2 < m then (m : Int) - 3 else (m : Int) + 9
  let doy : Int := Int.fdiv (153 * mp + 2) 5 + (d : Int) - 1
  let doe : Int := yoe * 365 + Int.fdiv yoe 4 - Int.fdiv yoe 100 + doy
  era * 146097 + doe - 719468

/-- Seconds since the epoch for a naive datetime. -/
def toSecs (dt : Datetime) : Int :=
  86400 * daysFromCivil dt.year dt.month dt.day
    + 3600 * (dt.hour : Int) + 60 * (dt.minute : Int) + (dt.second : Int)

/-- Subtraction `(a - b).days` for two Python datetimes: `timedelta.days` is the floor
of the difference in days. -/
def tdDays (a b : Datetime) : Int := Int.fdiv (toSecs a - toSecs b) 86400

def isLeapYear (y : Int) : Bool := (y % 4 = 0 && ¬ y % 100 = 0) || y % 400 = 0

def daysInMonth (y : Int) (m : Nat) : Nat :=
  if m = 2 then (if isLeapYear y then 29 else 28)
  else if m = 4 ∨ m = 6 ∨ m = 9 ∨ m = 11 then 30 else 31

/- ### Date parsing (`ClaimProcessor.parse_date`) -/

def digitVal (c : Char) : Option Nat :=
  if 48 ≤ c.toNat ∧ c.toNat ≤ 57 then some (c.toNat - 48) else none

/-- Read exactly two digits. -/
def take2 : List Char → Option (Nat × List Char)
  | a :: b :: rest =>
    match digitVal a, digitVal b with
    | some x, some y => some (10 * x + y, rest)
    | _, _ => none
  | _ => none

/-- Read exactly four digits. -/
def take4 : List Char → Option (Nat × List Char)
  | a :: b :: c :: d :: rest =>
    match digitVal a, digitVal b, digitVal c, digitVal d with
    | some x, some y, some z, some w => some (1000 * x + 100 * y + 10 * z + w, rest)
    | _, _, _, _ => none
  | _ => none

/-- Range validation of the `datetime` constructor (`MINYEAR = 1`,
month/day/field ranges); out-of-range values raise `ValueError`. -/
def mkValidDatetime (y : Int) (m d h mi s : Nat) : Option Datetime :=
  if 1 ≤ y ∧ 1 ≤ m ∧ m ≤ 12 ∧ 1 ≤ d ∧ d ≤ daysInMonth y m ∧ h ≤ 23 ∧ mi ≤ 59 ∧ s ≤ 59
  then some ⟨y, m, d, h, mi, s⟩ else none

/-- Time-of-day tail of an ISO string: `HH`, `HH:MM` or `HH:MM:SS`. -/
def parseTimePart (cs : List Char) : Option (Nat × Nat × Nat) :=
  match take2 cs with
  | some (h, []) => some (h, 0, 0)
  | some (h, c1 :: rest) =>
    if c1 = ':' then
      match take2 rest with
      | some (mi, []) => some (h, mi, 0)
      | some (mi, c2 :: rest2) =>
        if c2 = ':' then
          match take2 rest2 with
          | some (s, []) => some (h, mi, s)
          | _ => none
        else none
      | _ => none
    else none
  | none => none

/-- Model of `datetime.fromisoformat` restricted to the naive
`YYYY-MM-DD[ HH[:MM[:SS]]]` shapes this pipeline feeds it (the caller has
already replaced the `T` separator by a space and removed `Z`); other
CPython variants (fractional seconds, UTC offsets, compact digits) are out
of scope and modelled as parse errors. -/
def fromisoformat (s : String) : Option Datetime :=
  match take4 s.data with
  | some (y, c1 :: r1) =>
    if c1 = '-' then
      match take2 r1 with
      | some (m, c2 :: r2) =>
        if c2 = '-' then
          match take2 r2 with
          | some (d, []) => mkValidDatetime y m d 0 0 0
          | some (d, c3 :: t) =>
            if c3 = ' ' then
              match parseTimePart t with
              | some (h, mi, sec) => mkValidDatetime y m d h mi sec
              | none => none
            else none
          | none => none
        else none
      | _ => none
    else none
  | _ => none

/-- The `%m` directive of `strptime`: regex alternation `1[0-2]|0[1-9]|[1-9]`. -/
def parseMonthR : List Char → Option (Nat × List Char)
  | '1' :: c :: rest =>
    if c = '0' ∨ c = '1' ∨ c = '2' then some (10 + (c.toNat - 48), rest)
    else some (1, c :: rest)
  | '0' :: c :: rest =>
    if 49 ≤ c.toNat ∧ c.toNat ≤ 57 then some (c.toNat - 48, rest) else none
  | c :: rest =>
    if 49 ≤ c.toNat ∧ c.toNat ≤ 57 then some (c.toNat - 48, rest) else none
  | [] => none

/-- The `%d` directive of `strptime`: regex alternation `3[01]|[12]\d|0[1-9]|[1-9]`. -/
def parseDayR : List Char → Option (Nat × List Char)
  | '3' :: c :: rest =>
    if c = '0' ∨ c = '1' then some (30 + (c.toNat - 48), rest)
    else some (3, c :: rest)
  | '1' :: c :: rest =>
    if 48 ≤ c.toNat ∧ c.toNat ≤ 57 then some (10 + (c.toNat - 48), rest)
    else some (1, c :: rest)
  | '2' :: c :: rest =>
    if 48 ≤ c.toNat ∧ c.toNat ≤ 57 then some (20 + (c.toNat - 48), rest)
    else some (2, c :: rest)
  | '0' :: c :: rest =>
    if 49 ≤ c.toNat ∧ c.toNat ≤ 57 then some (c.toNat - 48, rest) else none
  | c :: rest =>
    if 49 ≤ c.toNat ∧ c.toNat ≤ 57 then some (c.toNat - 48, rest) else none
  | [] => none

/-- Model of `datetime.strptime(date_str, "%Y-%m-%d")`: four-digit year, 1-2 digit
month and day per the `%m`/`%d` regexes, no trailing characters, and the
calendar validation of the constructor. -/
def strptime_Y_m_d (s : String) : Option Datetime :=
  match take4 s.data with
  | some (y, c1 :: r1) =>
    if c1 = '-' then
      match parseMonthR r1 with
      | some (m, c2 :: r2) =>
        if c2 = '-' then
          match parseDayR r2 with
          | some (d, []) => mkValidDatetime y m d 0 0 0
          | _ => none
        else none
      | _ => none
    else none
  | _ => none

/-- Python `date_str.replace("T", " ")` (single-character pattern). -/
def replaceTspace (s : String) : String :=
  ⟨s.data.map (fun c => if c = 'T' then ' ' else c)⟩

/-- Python `date_str.replace("Z", "")` (single-character pattern, removes every Z). -/
def removeZ (s : String) : String :=
  ⟨s.data.filter (fun c => ¬ c = 'Z')⟩

/-- Model of `ClaimProcessor.parse_date`: falsy input is unparseable; a string
containing `T` goes through `fromisoformat` after the `T`/`Z` replacements;
otherwise `strptime("%Y-%m-%d")`; parse failures are caught and become
`None`. -/
def parse_date : Option String → Option Datetime
  | none => none
  | some s =>
    if s = "" then none
    else if s.data.contains 'T' then fromisoformat (removeZ (replaceTspace s))
    else strptime_Y_m_d s

/- ### Canonical claim record -/

/-- The canonical claim dict built by both normalizers. -/
structure Claim where
  claim_id : String
  patient_id : Option String
  procedure_code : String
  denial_reason : Option String
  status : String
  submitted_at : Option Datetime
  source_system : String
deriving DecidableEq, Repr

/-- Python truthiness of a `str | None` field (`None` and `""` are falsy). -/
def truthyOpt : Option String → Bool
  | none => false
  | some s => ¬ s = ""

/- ### Denial classification -/

/-- Model of `ClaimProcessor.normalize_denial_reason`: falsy input gives `None`,
otherwise `reason.lower().strip()`. -/
def normalize_denial_reason : Option String → Option String
  | none => none
  | some s => if s = "" then none else some (pyLowerStrip s)

def retryable_reasons : List String :=
  ["missing modifier", "incorrect npi", "prior auth required"]

def non_retryable_reasons : List String :=
  ["authorization expired", "incorrect provider type"]

/-- The `ambiguous_retryable` dict of `classify_ambiguous_denial`
(`dict.get` returns `none` on a miss). -/
def ambiguous_retryable (s : String) : Option Bool :=
  if s = "form incomplete" then some true
  else if s = "incorrect procedure" then some true
  else if s = "not billable" then some false
  else none

def heuristic_keywords : List String :=
  ["incomplete", "missing", "wrong", "error", "typo"]

/-- Body of `classify_ambiguous_denial` after its falsy guard, applied to
the lowercased/stripped reason: keyword heuristic first, then the
`ambiguous_retryable` table with default `False`. -/
def ambiguous_fallback (reason_lower : String) : Bool :=
  if heuristic_keywords.any (fun k => listIn k.data reason_lower.data) then true
  else (ambiguous_retryable reason_lower).getD false

/-- Model of `ClaimProcessor.classify_ambiguous_denial`: `if not reason: return False`,
otherwise lower/strip the reason and run the heuristic-then-table fallback. -/
def classify_ambiguous_denial : Option String → Bool
  | none => false
  | some reason => if reason = "" then false else ambiguous_fallback (pyLowerStrip reason)

/- ### Eligibility rule engine -/

/-- Rule 4 of `is_eligible_for_resubmission` (source lines 248-270): normalize
the denial reason; a falsy normalized reason takes the null-reason branch
through the classifier; otherwise look up the known-retryable and
known-non-retryable sets and fall back to the classifier. -/
def rule_four (denial_reason_raw : Option String) : Bool × String :=
  match normalize_denial_reason denial_reason_raw with
  | none =>
    if classify_ambiguous_denial none then
      (true, "Null denial reason classified as retryable")
    else (false, "Null denial reason classified as non-retryable")
  | some d =>
    if d = "" then
      (if classify_ambiguous_denial (some d) then
        (true, "Null denial reason classified as retryable")
      else (false, "Null denial reason classified as non-retryable"))
    else if retryable_reasons.contains d then
      (true, "Known retryable reason: \x27" ++ d ++ "\x27")
    else if non_retryable_reasons.contains d then
      (false, "Known non-retryable reason: \x27" ++ d ++ "\x27")
    else if classify_ambiguous_denial (some d) then
      (true, "Ambiguous reason \x27" ++ d ++ "\x27 classified as retryable")
    else (false, "Ambiguous reason \x27" ++ d ++ "\x27 classified as non-retryable")

/-- Model of `ClaimProcessor.is_eligible_for_resubmission`, with the field
`self.current_date` passed explicitly. Rules in source order: status,
patient id, submitted date and age, then rule 4. -/
def is_eligible_for_resubmission (current_date : Datetime) (claim : Claim) : Bool × String :=
  if ¬ claim.status = "denied" then
    (false, "Status is \x27" ++ claim.status ++ "\x27, not denied")
  else if ¬ truthyOpt claim.patient_id then (false, "Patient ID is null")
  else
    match claim.submitted_at with
    | none => (false, "Submitted date is null")
    | some sub =>
      let days_old := tdDays current_date sub
      if days_old ≤ 7 then
        (false, "Claim is only " ++ toString days_old ++ " days old (need >7)")
      else rule_four claim.denial_reason

/- ### Recommendation generator -/

/-- The `recommendations` dict of `generate_recommended_changes`. -/
def recommendations (s : String) : Option String :=
  if s = "missing modifier" then some "Add the required modifier to the procedure code"
  else if s = "incorrect npi" then some "Review and correct the NPI number"
  else if s = "prior auth required" then some "Obtain prior authorization before resubmission"
  else if s = "incorrect procedure" then some "Review and correct the procedure code"
  else if s = "form incomplete" then some "Complete all required fields and resubmit"
  else none

/-- Model of `ClaimProcessor.generate_recommended_changes`: falsy reason gives the
generic instruction; otherwise lowercase (no strip) and look up the table,
defaulting to an instruction echoing the original reason. -/
def generate_recommended_changes (claim : Claim) : String :=
  match claim.denial_reason with
  | none => "Review claim details and resubmit with corrections"
  | some dr =>
    if dr = "" then "Review claim details and resubmit with corrections"
    else (recommendations (pyLower dr)).getD ("Review and correct: " ++ dr)

/-- Field `self.current_date = datetime(2025, 7, 30)` set in `__init__`. -/
def pipeline_current_date : Datetime := ⟨2025, 7, 30, 0, 0, 0⟩

/- ### Source normalizers -/

/-- One raw CSV row of the alpha source as text cells, before the CSV
NA handling of the CSV reader. -/
structure AlphaRawRow where
  claim_id : String
  patient_id : String
  procedure_code : String
  denial_reason : String
  submitted_at : String
  status : String
deriving DecidableEq, Repr

/-- The sentinel strings `pandas.read_csv` converts to NaN by default
(subset of the documented default `na_values`, including the empty cell). -/
def pd_default_na : List String :=
  ["", "#N/A", "N/A", "NA", "NULL", "NaN", "None", "n/a", "nan", "null", "<NA>"]

/-- Reading one CSV cell with pandas: a default-NA sentinel becomes NaN
(modelled as `none`), anything else is kept as text. -/
def pd_read_cell (s : String) : Option String :=
  if pd_default_na.contains s then none else some s

/-- A row as it comes out of `pd.read_csv` (`none` is NaN). -/
structure AlphaRow where
  claim_id : Option String
  patient_id : Option String
  procedure_code : Option String
  denial_reason : Option String
  submitted_at : Option String
  status : Option String
deriving DecidableEq, Repr

def pd_row (r : AlphaRawRow) : AlphaRow :=
  ⟨pd_read_cell r.claim_id, pd_read_cell r.patient_id, pd_read_cell r.procedure_code,
   pd_read_cell r.denial_reason, pd_read_cell r.submitted_at, pd_read_cell r.status⟩

/-- Python `str()` of a pandas cell: NaN prints as `"nan"`. -/
def pdStr : Option String → String
  | none => "nan"
  | some s => s

/-- The per-row body of `ingest_csv_source` (source lines 120-142): map the
`"None"` sentinel and NaN to null for `denial_reason`, NaN and the empty
string to null for `patient_id`, string-coerce the required cells, lowercase
the status, and parse the date. No statement in this block raises, so the
`except` branch that counts malformed records is unreachable for this
source. -/
def ingest_csv_record (row : AlphaRow) : Claim :=
  let denial_reason : Option String :=
    match row.denial_reason with
    | some "None" => none
    | none => none
    | some s => some s
  let patient_id : Option String :=
    match row.patient_id with
    | none => none
    | some "" => none
    | some s => some s
  { claim_id := pdStr row.claim_id
    patient_id := patient_id
    procedure_code := pdStr row.procedure_code
    denial_reason := denial_reason
    status := pyLower (pdStr row.status)
    submitted_at := parse_date (some (pdStr row.submitted_at))
    source_system := "alpha" }

/-- One record of the beta JSON source. The outer `Option` is key presence
(`item["k"]` raises `KeyError` when missing, `item.get` gives `None`); the
inner `Option` is JSON `null` versus a string value. -/
structure BetaItem where
  id : Option (Option String)
  member : Option (Option String)
  code : Option (Option String)
  error_msg : Option (Option String)
  date : Option (Option String)
  status : Option (Option String)
deriving DecidableEq, Repr

/-- Python `str()` of a JSON value that is null or a string. -/
def pyStrJ : Option String → String
  | none => "None"
  | some s => s

/-- The per-item body of `ingest_json_source` (source lines 203-219): direct
indexing of `id`, `code`, `date`, `status` (a missing key raises `KeyError`,
caught as a malformed record, modelled as `none`), `item.get` for `member`
and `error_msg` whose values flow into the claim verbatim. -/
def ingest_json_record (item : BetaItem) : Option Claim :=
  match item.id, item.code, item.date, item.status with
  | some idv, some codev, some datev, some statusv =>
    some
      { claim_id := pyStrJ idv
        patient_id := item.member.join
        procedure_code := pyStrJ codev
        denial_reason := item.error_msg.join
        status := pyLower (pyStrJ statusv)
        submitted_at := parse_date datev
        source_system := "beta" }
  | _, _, _, _ => none

/- ### Metrics and pipeline orchestration -/

/-- The `self.metrics` counters. -/
structure Metrics where
  total_processed : Nat
  source_alpha_count : Nat
  source_beta_count : Nat
  resubmission_candidates : Nat
  excluded_claims : Nat
  malformed_records : Nat
deriving DecidableEq, Repr

def initMetrics : Metrics := ⟨0, 0, 0, 0, 0, 0⟩

/-- Componentwise order on metrics ("no counter is decremented"). -/
def Metrics.le (a b : Metrics) : Prop :=
  a.total_processed ≤ b.total_processed ∧
  a.source_alpha_count ≤ b.source_alpha_count ∧
  a.source_beta_count ≤ b.source_beta_count ∧
  a.resubmission_candidates ≤ b.resubmission_candidates ∧
  a.excluded_claims ≤ b.excluded_claims ∧
  a.malformed_records ≤ b.malformed_records

/-- The record loop of `ingest_csv_source`: every row normalizes (see
`ingest_csv_record`), incrementing `source_alpha_count`. -/
def ingest_csv_source : List AlphaRow → Metrics → List Claim × Metrics
  | [], m => ([], m)
  | r :: rest, m =>
    let c := ingest_csv_record r
    let out := ingest_csv_source rest
      { m with source_alpha_count := m.source_alpha_count + 1 }
    (c :: out.1, out.2)

/-- The record loop of `ingest_json_source`: an item whose required key is
missing is dropped, `malformed_records` is incremented, and the loop
continues; otherwise the claim is emitted and `source_beta_count`
incremented. -/
def ingest_json_source : List BetaItem → Metrics → List Claim × Metrics
  | [], m => ([], m)
  | it :: rest, m =>
    match ingest_json_record it with
    | some c =>
      let out := ingest_json_source rest
        { m with source_beta_count := m.source_beta_count + 1 }
      (c :: out.1, out.2)
    | none =>
      ingest_json_source rest { m with malformed_records := m.malformed_records + 1 }

/-- An entry of `resubmission_candidates.json`. -/
structure Candidate where
  claim_id : String
  resubmission_reason : String
  source_system : String
  recommended_changes : String
deriving DecidableEq, Repr

/-- An entry of `excluded_claims.json`. -/
structure Exclusion where
  claim_id : String
  exclusion_reason : String
  source_system : String
deriving DecidableEq, Repr

/-- Python `x or default` for a `str | None` value. -/
def pyOrStr (o : Option String) (d : String) : String :=
  match o with
  | none => d
  | some s => if s = "" then d else s

/-- One iteration of the eligibility loop in `process_pipeline`: evaluate the
claim and route it to exactly one of the two output lists, incrementing the
matching counter. -/
def pipeline_step (acc : List Candidate × List Exclusion × Metrics) (claim : Claim) :
    List Candidate × List Exclusion × Metrics :=
  let e := is_eligible_for_resubmission pipeline_current_date claim
  if e.1 then
    (acc.1 ++ [{ claim_id := claim.claim_id
                 resubmission_reason := pyOrStr claim.denial_reason "Unknown"
                 source_system := claim.source_system
                 recommended_changes := generate_recommended_changes claim }],
     acc.2.1,
     { acc.2.2 with resubmission_candidates := acc.2.2.resubmission_candidates + 1 })
  else
    (acc.1,
     acc.2.1 ++ [{ claim_id := claim.claim_id
                   exclusion_reason := e.2
                   source_system := claim.source_system }],
     { acc.2.2 with excluded_claims := acc.2.2.excluded_claims + 1 })

def pipeline_loop : List Claim → List Candidate × List Exclusion × Metrics →
    List Candidate × List Exclusion × Metrics
  | [], acc => acc
  | c :: rest, acc => pipeline_loop rest (pipeline_step acc c)

/-- Model of `ClaimProcessor.process_pipeline` minus the file output: ingest both sources,
set `total_processed` to the unified count, then run the eligibility loop. -/
def process_pipeline (rows : List AlphaRow) (items : List BetaItem) :
    List Candidate × List Exclusion × Metrics :=
  let csv := ingest_csv_source rows initMetrics
  let js := ingest_json_source items csv.2
  let unified := csv.1 ++ js.1
  pipeline_loop unified ([], [], { js.2 with total_processed := unified.length })

/- ### Helper lemmas on the string primitives -/

theorem toNat_ofNat_small (n : Nat) (h : n < 55296) : (Char.ofNat n).toNat = n := by
  have hv : n.isValidChar := Or.inl h
  rw [Char.ofNat, dif_pos hv]
  rfl

theorem lowerChar_toNat (c : Char) :
    (lowerChar c).toNat = if 65 ≤ c.toNat ∧ c.toNat ≤ 90 then c.toNat + 32 else c.toNat := by
  unfold lowerChar
  by_cases h : 65 ≤ c.toNat ∧ c.toNat ≤ 90
  · rw [if_pos h, if_pos h]
    exact toNat_ofNat_small _ (by omega)
  · rw [if_neg h, if_neg h]

theorem lowerChar_of_not_upper (c : Char) (h : ¬ (65 ≤ c.toNat ∧ c.toNat ≤ 90)) :
    lowerChar c = c := by
  unfold lowerChar
  rw [if_neg h]

theorem lowerChar_lowerChar (c : Char) : lowerChar (lowerChar c) = lowerChar c := by
  apply lowerChar_of_not_upper
  have h1 := lowerChar_toNat c
  by_cases h : 65 ≤ c.toNat ∧ c.toNat ≤ 90 <;> simp [h] at h1 <;> omega

theorem pyIsSpace_lowerChar (c : Char) : pyIsSpace (lowerChar c) = pyIsSpace c := by
  by_cases h : 65 ≤ c.toNat ∧ c.toNat ≤ 90
  · have h1 : (lowerChar c).toNat = c.toNat + 32 := by rw [lowerChar_toNat, if_pos h]
    have hL : pyIsSpace (lowerChar c) = false := by
      unfold pyIsSpace
      rw [h1]
      simp
      omega
    have hR : pyIsSpace c = false := by
      unfold pyIsSpace
      simp
      omega
    rw [hL, hR]
  · rw [lowerChar_of_not_upper c h]

theorem dropWhile_dropWhile {α : Type} (p : α → Bool) (l : List α) :
    List.dropWhile p (List.dropWhile p l) = List.dropWhile p l := by
  induction l with
  | nil => rfl
  | cons h t ih =>
    by_cases hp : p h
    · simp [List.dropWhile_cons, hp, ih]
    · simp [List.dropWhile_cons, hp]

theorem dropWhile_head_false {α : Type} {p : α → Bool} {l : List α} {a : α} {t : List α}
    (h : List.dropWhile p l = a :: t) : p a = false := by
  have h2 := List.head?_dropWhile_not p l
  rw [h] at h2
  simpa using h2

theorem dropWhile_stripL (l : List Char) :
    List.dropWhile pyIsSpace (stripL l) = stripL l := by
  unfold stripL
  set A := List.dropWhile pyIsSpace l with hA
  cases hB : List.dropWhile pyIsSpace A.reverse with
  | nil => simp
  | cons b bs =>
    have hsuf : (b :: bs) <:+ A.reverse := by
      rw [← hB]
      exact List.dropWhile_suffix _
    have hpre : (b :: bs).reverse <+: A := by
      rw [← List.reverse_suffix]
      simpa using hsuf
    obtain ⟨w, hw⟩ := hpre
    cases hrev : (b :: bs).reverse with
    | nil => simp at hrev
    | cons c cs =>
      have hA2 : List.dropWhile pyIsSpace l = c :: (cs ++ w) := by
        rw [← hA, ← hw, hrev]
        simp
      have hc : pyIsSpace c = false := dropWhile_head_false hA2
      simp [List.dropWhile_cons, hc]

theorem dropWhile_reverse_stripL (l : List Char) :
    List.dropWhile pyIsSpace (stripL l).reverse = (stripL l).reverse := by
  unfold stripL
  rw [List.reverse_reverse]
  exact dropWhile_dropWhile _ _

theorem stripL_eq_self (x : List Char) (h1 : List.dropWhile pyIsSpace x = x)
    (h2 : List.dropWhile pyIsSpace x.reverse = x.reverse) : stripL x = x := by
  unfold stripL
  rw [h1, h2, List.reverse_reverse]

theorem stripL_stripL (l : List Char) : stripL (stripL l) = stripL l :=
  stripL_eq_self _ (dropWhile_stripL l) (dropWhile_reverse_stripL l)

theorem dropWhile_map_lowerChar (l : List Char) :
    List.dropWhile pyIsSpace (l.map lowerChar) = (List.dropWhile pyIsSpace l).map lowerChar := by
  rw [List.dropWhile_map]
  have h : (pyIsSpace ∘ lowerChar) = pyIsSpace := funext pyIsSpace_lowerChar
  rw [h]

theorem stripL_map_lowerChar (l : List Char) :
    stripL (l.map lowerChar) = (stripL l).map lowerChar := by
  simp only [stripL, dropWhile_map_lowerChar, ← List.map_reverse]

theorem map_lowerChar_idem (l : List Char) :
    (l.map lowerChar).map lowerChar = l.map lowerChar := by
  rw [List.map_map]
  have h : (lowerChar ∘ lowerChar) = lowerChar := funext lowerChar_lowerChar
  rw [h]

theorem pyLower_data (s : String) : (pyLower s).data = s.data.map lowerChar := rfl

theorem pyLowerStrip_pyLowerStrip (s : String) :
    pyLowerStrip (pyLowerStrip s) = pyLowerStrip s := by
  unfold pyLowerStrip
  congr 1
  rw [← stripL_map_lowerChar, map_lowerChar_idem, stripL_stripL]

theorem pyLower_ne_empty {s : String} (h : ¬ s = "") : ¬ pyLower s = "" := by
  intro hc
  apply h
  have h2 : s.data.map lowerChar = [] := by
    rw [← pyLower_data, hc]
  have h3 : s.data = [] := List.map_eq_nil_iff.mp h2
  cases s
  simp at h3
  subst h3
  rfl

/- ### Rule-4 normalization invariance -/

theorem rule_four_norm (r : String) :
    rule_four (some r) = rule_four (some (pyLowerStrip r)) := by
  by_cases h0 : r = ""
  · subst h0
    decide
  · by_cases h1 : pyLowerStrip r = ""
    · have hL : normalize_denial_reason (some r) = some "" := by
        simp only [normalize_denial_reason]
        rw [if_neg h0, h1]
      have hR : normalize_denial_reason (some (pyLowerStrip r)) = none := by
        simp only [normalize_denial_reason]
        rw [if_pos h1]
      unfold rule_four
      rw [hL, hR]
      simp [classify_ambiguous_denial]
    · have hL : normalize_denial_reason (some r) = some (pyLowerStrip r) := by
        simp only [normalize_denial_reason]
        rw [if_neg h0]
      have hR : normalize_denial_reason (some (pyLowerStrip r)) =
          some (pyLowerStrip (pyLowerStrip r)) := by
        simp only [normalize_denial_reason]
        rw [if_neg h1]
      unfold rule_four
      rw [hL, hR, pyLowerStrip_pyLowerStrip]

/- ### Claim theorems -/

/-- C1: the rules are applied strictly in order and the first failure
terminates evaluation: for every claim with status "denied" and an absent
(falsy) patient id, the engine returns ineligible with the rule-2
justification "Patient ID is null", whatever the denial reason — rule 4 is
never consulted. -/
theorem c1_rule2_fires_before_rule4 (claim : Claim) (now : Datetime)
    (hs : claim.status = "denied") (hp : truthyOpt claim.patient_id = false) :
    is_eligible_for_resubmission now claim = (false, "Patient ID is null") := by
  simp [is_eligible_for_resubmission, hs, hp]

/-- Scenario B of the spec: denied claim, absent patient id, non-retryable
denial reason "Authorization expired". -/
def claimB : Claim :=
  ⟨"A125", none, "99215", some "Authorization expired", "denied",
   some ⟨2025, 7, 5, 0, 0, 0⟩, "alpha"⟩

/-- Witness for C1 at scenario B. -/
theorem c1_rule2_fires_before_rule4_witness :
    is_eligible_for_resubmission pipeline_current_date claimB =
      (false, "Patient ID is null") :=
  c1_rule2_fires_before_rule4 claimB pipeline_current_date rfl rfl

/-- C2: the rule-3 age boundary is exclusive. For every claim passing rules
1 and 2 with a present submitted date: at age exactly 7 days the claim is
ineligible with a justification carrying the computed age; at age 8 days
rule 3 passes and the verdict is that of rule 4. -/
theorem c2_rule3_boundary_exclusive (claim : Claim) (now sub : Datetime)
    (hs : claim.status = "denied") (hp : truthyOpt claim.patient_id = true)
    (hsub : claim.submitted_at = some sub) :
    (tdDays now sub = 7 →
      is_eligible_for_resubmission now claim =
        (false, "Claim is only " ++ toString (tdDays now sub) ++ " days old (need >7)")) ∧
    (tdDays now sub = 8 →
      is_eligible_for_resubmission now claim = rule_four claim.denial_reason) := by
  constructor
  · intro h7
    simp [is_eligible_for_resubmission, hs, hp, hsub, h7]
  · intro h8
    simp [is_eligible_for_resubmission, hs, hp, hsub, h8]

/-- A denied claim submitted 2025-07-23, exactly 7 days before the
reference date of the processor. -/
def claim_age7 : Claim :=
  ⟨"W2", some "P009", "99213", some "Missing modifier", "denied",
   some ⟨2025, 7, 23, 0, 0, 0⟩, "alpha"⟩

/-- Witness for C2: the 7-day-old claim is ineligible with the computed age
in the justification. -/
theorem c2_rule3_boundary_exclusive_witness :
    is_eligible_for_resubmission pipeline_current_date claim_age7 =
      (false, "Claim is only 7 days old (need >7)") := by
  have h := (c2_rule3_boundary_exclusive claim_age7 pipeline_current_date
    ⟨2025, 7, 23, 0, 0, 0⟩ rfl rfl rfl).1 (by decide)
  rw [h]
  decide

/-- C3: an absent denial reason is not short-circuited: the absent-input
outcome of the classifier coincides with running the step-3 heuristic/table
fallback on the empty string, and a claim passing rules 1-3 with an absent
reason gets exactly that classifier outcome as its rule-4 verdict. -/
theorem c3_absent_reason_via_classifier :
    classify_ambiguous_denial none = ambiguous_fallback "" ∧
    ∀ (claim : Claim) (now sub : Datetime),
      claim.status = "denied" → truthyOpt claim.patient_id = true →
      claim.submitted_at = some sub → 7 < tdDays now sub →
      claim.denial_reason = none →
      is_eligible_for_resubmission now claim =
        (classify_ambiguous_denial none, "Null denial reason classified as non-retryable") := by
  constructor
  · decide
  · intro claim now sub hs hp hsub hage hdr
    have h7 : ¬ tdDays now sub ≤ 7 := by omega
    simp [is_eligible_for_resubmission, hs, hp, hsub, h7, hdr, rule_four,
      normalize_denial_reason, classify_ambiguous_denial]

/-- Scenario D of the spec: denied claim, patient P004, submitted
2025-07-20 (age 10 days), absent denial reason. -/
def claimD : Claim :=
  ⟨"A127", some "P004", "99401", none, "denied", some ⟨2025, 7, 20, 0, 0, 0⟩, "alpha"⟩

/-- Witness for C3 at scenario D. -/
theorem c3_absent_reason_via_classifier_witness :
    is_eligible_for_resubmission pipeline_current_date claimD =
      (classify_ambiguous_denial none, "Null denial reason classified as non-retryable") :=
  c3_absent_reason_via_classifier.2 claimD pipeline_current_date
    ⟨2025, 7, 20, 0, 0, 0⟩ rfl rfl rfl (by decide) rfl

/-- C4: in the ambiguous fallback the keyword heuristic is evaluated before
the exact-match table (a stem match forces `true` regardless of the table;
with no stem match the result is exactly the table lookup with default
`false`); "incorrect procedure" contains no stem and classifies retryable
via the table; a reason matching neither defaults to `false`. -/
theorem c4_heuristic_before_table :
    (∀ r : String, heuristic_keywords.any (fun k => listIn k.data r.data) = true →
      ambiguous_fallback r = true) ∧
    (∀ r : String, heuristic_keywords.any (fun k => listIn k.data r.data) = false →
      ambiguous_fallback r = (ambiguous_retryable r).getD false) ∧
    heuristic_keywords.any (fun k => listIn k.data ("incorrect procedure").data) = false ∧
    classify_ambiguous_denial (some "incorrect procedure") = true ∧
    ambiguous_retryable "incorrect procedure" = some true ∧
    classify_ambiguous_denial (some "paperwork lost") = false := by
  refine ⟨?_, ?_, by decide, by decide, by decide, by decide⟩
  · intro r h
    simp [ambiguous_fallback, h]
  · intro r h
    simp [ambiguous_fallback, h]

/-- Witness for C4: a stem match ("form incomplete") and a no-stem table
lookup ("not billable"). -/
theorem c4_heuristic_before_table_witness :
    ambiguous_fallback "form incomplete" = true ∧
    ambiguous_fallback "not billable" = (ambiguous_retryable "not billable").getD false :=
  ⟨c4_heuristic_before_table.1 "form incomplete" (by decide),
   c4_heuristic_before_table.2.1 "not billable" (by decide)⟩

/-- C5: denial classification in rule 4 is invariant under lowercasing and
trimming of the reason: for every claim, reference date and reason string,
the verdict of the engine on the raw reason equals its verdict on the
lowercased/stripped reason; in particular "Missing Modifier" and
"missing modifier" get identical rule-4 outcomes. -/
theorem c5_case_trim_invariant :
    (∀ (claim : Claim) (now : Datetime) (r : String),
      is_eligible_for_resubmission now { claim with denial_reason := some r } =
      is_eligible_for_resubmission now { claim with denial_reason := some (pyLowerStrip r) }) ∧
    rule_four (some "Missing Modifier") = rule_four (some "missing modifier") := by
  constructor
  · intro claim now r
    have key := rule_four_norm r
    simp only [is_eligible_for_resubmission, key]
  · have h := rule_four_norm "Missing Modifier"
    rw [h]
    decide

/-- Scenario A of the spec: denied claim, patient P001, submitted
2025-07-01, reason "Missing modifier". -/
def claimA : Claim :=
  ⟨"A123", some "P001", "99213", some "Missing modifier", "denied",
   some ⟨2025, 7, 1, 0, 0, 0⟩, "alpha"⟩

/-- C8: scenario A end to end with the reference date
2025-07-30: eligible at age 29 days through the known-retryable set, and
the recommended change is exactly the missing-modifier instruction. -/
theorem c8_scenario_a :
    is_eligible_for_resubmission pipeline_current_date claimA =
      (true, "Known retryable reason: \x27missing modifier\x27") ∧
    generate_recommended_changes claimA = "Add the required modifier to the procedure code" ∧
    tdDays pipeline_current_date ⟨2025, 7, 1, 0, 0, 0⟩ = 29 := by
  decide

/-- C9: the date parser accepts (a) ISO-style input containing the literal
separator `T` (routed through `fromisoformat` after replacing `T` by a space
and stripping every `Z`, giving a naive timestamp) and (b) plain
`YYYY-MM-DD` input (routed through `strptime`); null and empty input, and
every string rejected by both routes, yield `none` rather than an error. -/
theorem c9_parse_date_contract :
    parse_date none = none ∧
    parse_date (some "") = none ∧
    parse_date (some "2025-07-03T00:00:00") = some ⟨2025, 7, 3, 0, 0, 0⟩ ∧
    parse_date (some "2025-07-09T12:30:45Z") = some ⟨2025, 7, 9, 12, 30, 45⟩ ∧
    parse_date (some "2025-07-01") = some ⟨2025, 7, 1, 0, 0, 0⟩ ∧
    (∀ s : String, ¬ s = "" → s.data.contains 'T' = true →
      parse_date (some s) = fromisoformat (removeZ (replaceTspace s))) ∧
    (∀ s : String, ¬ s = "" → s.data.contains 'T' = false →
      parse_date (some s) = strptime_Y_m_d s) ∧
    parse_date (some "07/03/2025") = none ∧
    parse_date (some "2025-07-03 10:00:00") = none := by
  refine ⟨rfl, by decide, by decide, by decide, by decide, ?_, ?_, by decide, by decide⟩
  · intro s h0 hT
    simp only [parse_date]
    rw [if_neg h0, if_pos (by rw [hT])]
  · intro s h0 hT
    simp only [parse_date]
    rw [if_neg h0, if_neg (by rw [hT]; exact Bool.false_ne_true)]

/-- Witness for C9: a non-ISO string takes the `strptime` route and is
unparseable. -/
theorem c9_parse_date_contract_witness :
    parse_date (some "99/99/9999") = strptime_Y_m_d "99/99/9999" :=
  c9_parse_date_contract.2.2.2.2.2.2.1 "99/99/9999" (by decide) (by decide)

/- ### C6: sentinel handling by the two normalizers -/

/-- A beta record whose `member` is the literal string `"None"` and whose
`error_msg` is the empty string. -/
def beta_item_sentinel : BetaItem :=
  ⟨some (some "B991"), some (some "None"), some (some "99215"), some (some ""),
   some (some "2025-07-10"), some (some "denied")⟩

/-- C6 counterexample: the beta normalizer does not treat the literal
`"None"` string or the empty string as absent — they flow verbatim into
`patient_id` and `denial_reason` of the emitted claim. -/
theorem c6_counterexample :
    (ingest_json_record beta_item_sentinel).map (fun c => (c.patient_id, c.denial_reason)) =
      some (some "None", some "") ∧
    ¬ (some "None" : Option String) = none ∧ ¬ (some "" : Option String) = none := by
  refine ⟨by decide, by decide, by decide⟩

/-- C6 amended: the alpha normalizer treats the `"None"` and empty-string
sentinels as absent (the NA handling of the CSV reader maps both to NaN, and the
row code additionally checks `"None"` for the denial reason and `""` for
the patient id); the beta normalizer treats only the JSON-native null and
missing-key markers as absent — its `member` and `error_msg` values reach
the claim verbatim. -/
theorem c6_amended :
    (∀ s : String, s = "" ∨ s = "None" → pd_read_cell s = none) ∧
    (∀ row : AlphaRow, row.patient_id = none ∨ row.patient_id = some "" →
      (ingest_csv_record row).patient_id = none) ∧
    (∀ row : AlphaRow, row.denial_reason = none ∨ row.denial_reason = some "None" →
      (ingest_csv_record row).denial_reason = none) ∧
    (∀ (item : BetaItem) (c : Claim), ingest_json_record item = some c →
      c.patient_id = item.member.join ∧ c.denial_reason = item.error_msg.join) := by
  refine ⟨?_, ?_, ?_, ?_⟩
  · intro s h
    cases h with
    | inl h => subst h; decide
    | inr h => subst h; decide
  · intro row h
    cases h with
    | inl h => simp [ingest_csv_record, h]
    | inr h => simp [ingest_csv_record, h]
  · intro row h
    cases h with
    | inl h => simp [ingest_csv_record, h]
    | inr h => simp [ingest_csv_record, h]
  · intro item c h
    simp only [ingest_json_record] at h
    split at h
    · rw [Option.some_inj] at h
      subst h
      exact ⟨rfl, rfl⟩
    · simp at h

/-- Witness for C6 (amended): the alpha sentinels map to absent, and a beta
record with null member and verbatim error text shows both reach the claim. -/
theorem c6_amended_witness :
    pd_read_cell "None" = none ∧
    (ingest_csv_record (pd_row ⟨"A1", "None", "99213", "None", "2025-07-01", "denied"⟩)).patient_id
      = none ∧
    (ingest_json_record beta_item_sentinel).map Claim.patient_id = some (some "None") := by
  refine ⟨c6_amended.1 "None" (Or.inr rfl), ?_, ?_⟩
  · exact c6_amended.2.1 _ (Or.inl rfl)
  · cases hc : ingest_json_record beta_item_sentinel with
    | none => exact absurd hc (by decide)
    | some c =>
      have h2 := (c6_amended.2.2.2 beta_item_sentinel c hc).1
      simp [h2]
      decide

/- ### C7: required fields and malformed-record handling -/

/-- An alpha row whose `claim_id` cell is NaN (missing). -/
def alpha_row_missing_id : AlphaRow :=
  ⟨none, some "P777", some "99213", some "Missing modifier", some "2025-07-01", some "denied"⟩

/-- C7 counterexample: a CSV record with a missing required `claim_id` is
not dropped — it is emitted with the string coercion `"nan"` as claim id
and the malformed counter stays 0. -/
theorem c7_counterexample :
    alpha_row_missing_id.claim_id = none ∧
    (ingest_csv_source [alpha_row_missing_id] initMetrics).1.length = 1 ∧
    (ingest_csv_record alpha_row_missing_id).claim_id = "nan" ∧
    (ingest_csv_source [alpha_row_missing_id] initMetrics).2.malformed_records = 0 := by
  refine ⟨rfl, rfl, by decide, rfl⟩

theorem ingest_csv_source_fst_len (rows : List AlphaRow) (m : Metrics) :
    (ingest_csv_source rows m).1.length = rows.length := by
  induction rows generalizing m with
  | nil => rfl
  | cons r rest ih => simp [ingest_csv_source, ih]

theorem ingest_csv_source_snd (rows : List AlphaRow) (m : Metrics) :
    (ingest_csv_source rows m).2 =
      { m with source_alpha_count := m.source_alpha_count + rows.length } := by
  induction rows generalizing m with
  | nil => simp [ingest_csv_source]
  | cons r rest ih =>
    simp only [ingest_csv_source, ih, List.length_cons]
    congr 1
    omega

theorem ingest_json_source_len_malformed (items : List BetaItem) (m : Metrics) :
    (ingest_json_source items m).1.length + (ingest_json_source items m).2.malformed_records =
      items.length + m.malformed_records := by
  induction items generalizing m with
  | nil => rfl
  | cons it rest ih =>
    cases h : ingest_json_record it with
    | some c =>
      have h2 := ih { m with source_beta_count := m.source_beta_count + 1 }
      simp only [ingest_json_source, h, List.length_cons]
      simp at h2 ⊢
      omega
    | none =>
      have h2 := ih { m with malformed_records := m.malformed_records + 1 }
      simp only [ingest_json_source, h, List.length_cons]
      simp at h2 ⊢
      omega

/-- C7 amended: the alpha loop never drops a record and never touches the
malformed counter (missing cells are string-coerced, so the required text
fields of an alpha claim are always non-empty); the beta loop drops a
record whose required `id` key is missing, increments the malformed counter
by exactly the number of dropped records, and keeps normalizing the
remaining records. -/
theorem c7_amended :
    (∀ (rows : List AlphaRow) (m : Metrics),
      (ingest_csv_source rows m).1.length = rows.length ∧
      (ingest_csv_source rows m).2.malformed_records = m.malformed_records) ∧
    (∀ raw : AlphaRawRow,
      ¬ (ingest_csv_record (pd_row raw)).claim_id = "" ∧
      ¬ (ingest_csv_record (pd_row raw)).procedure_code = "" ∧
      ¬ (ingest_csv_record (pd_row raw)).status = "" ∧
      (ingest_csv_record (pd_row raw)).source_system = "alpha") ∧
    (∀ item : BetaItem, item.id = none → ingest_json_record item = none) ∧
    (∀ (items : List BetaItem) (m : Metrics),
      (ingest_json_source items m).1.length + (ingest_json_source items m).2.malformed_records =
        items.length + m.malformed_records) ∧
    (∀ (it : BetaItem) (items : List BetaItem) (m : Metrics), ingest_json_record it = none →
      ingest_json_source (it :: items) m =
        ingest_json_source items { m with malformed_records := m.malformed_records + 1 }) := by
  refine ⟨?_, ?_, ?_, ingest_json_source_len_malformed, ?_⟩
  · intro rows m
    refine ⟨ingest_csv_source_fst_len rows m, ?_⟩
    rw [ingest_csv_source_snd]
  · intro raw
    refine ⟨?_, ?_, ?_, rfl⟩
    · show ¬ pdStr (pd_read_cell raw.claim_id) = ""
      unfold pd_read_cell
      by_cases h : pd_default_na.contains raw.claim_id
      · rw [if_pos h]; decide
      · rw [if_neg h]
        intro hc
        exact h (by rw [show raw.claim_id = "" from hc]; decide)
    · show ¬ pdStr (pd_read_cell raw.procedure_code) = ""
      unfold pd_read_cell
      by_cases h : pd_default_na.contains raw.procedure_code
      · rw [if_pos h]; decide
      · rw [if_neg h]
        intro hc
        exact h (by rw [show raw.procedure_code = "" from hc]; decide)
    · show ¬ pyLower (pdStr (pd_read_cell raw.status)) = ""
      unfold pd_read_cell
      by_cases h : pd_default_na.contains raw.status
      · rw [if_pos h]; decide
      · rw [if_neg h]
        apply pyLower_ne_empty
        intro hc
        exact h (by rw [show raw.status = "" from hc]; decide)
  · intro item h
    simp [ingest_json_record, h]
  · intro it items m h
    simp [ingest_json_source, h]

/-- Witness for C7 (amended): a beta item with a missing `id` key is
dropped with the malformed counter incremented, while the sample alpha row
with a NaN claim id is emitted with non-empty fields. -/
theorem c7_amended_witness :
    ingest_json_record ⟨none, some (some "P1"), some (some "99"), some none,
        some (some "2025-07-01"), some (some "denied")⟩ = none ∧
    ¬ (ingest_csv_record (pd_row ⟨"", "P7", "99213", "None", "2025-07-01", "denied"⟩)).claim_id
        = "" ∧
    (ingest_json_source [⟨none, none, none, none, none, none⟩] initMetrics).2.malformed_records
        = initMetrics.malformed_records + 1 := by
  refine ⟨c7_amended.2.2.1 _ rfl, c7_amended.2.1 _ |>.1, ?_⟩
  have h := c7_amended.2.2.2.2 ⟨none, none, none, none, none, none⟩ [] initMetrics
    (c7_amended.2.2.1 _ rfl)
  rw [h]
  rfl

/- ### C10: routing partition and counter monotonicity -/

theorem Metrics.le_rfl (m : Metrics) : Metrics.le m m :=
  ⟨Nat.le_refl _, Nat.le_refl _, Nat.le_refl _, Nat.le_refl _, Nat.le_refl _, Nat.le_refl _⟩

theorem Metrics.le_trans (a b c : Metrics) (h1 : Metrics.le a b) (h2 : Metrics.le b c) :
    Metrics.le a c := by
  obtain ⟨x1, x2, x3, x4, x5, x6⟩ := h1
  obtain ⟨y1, y2, y3, y4, y5, y6⟩ := h2
  exact ⟨Nat.le_trans x1 y1, Nat.le_trans x2 y2, Nat.le_trans x3 y3, Nat.le_trans x4 y4,
    Nat.le_trans x5 y5, Nat.le_trans x6 y6⟩

theorem ingest_csv_source_mono (rows : List AlphaRow) (m : Metrics) :
    Metrics.le m (ingest_csv_source rows m).2 := by
  rw [ingest_csv_source_snd]
  exact ⟨Nat.le_refl _, Nat.le_add_right _ _, Nat.le_refl _, Nat.le_refl _,
    Nat.le_refl _, Nat.le_refl _⟩

theorem ingest_json_source_mono (items : List BetaItem) (m : Metrics) :
    Metrics.le m (ingest_json_source items m).2 := by
  induction items generalizing m with
  | nil => exact Metrics.le_rfl m
  | cons it rest ih =>
    cases h : ingest_json_record it with
    | some c =>
      have hstep : (ingest_json_source (it :: rest) m).2 =
          (ingest_json_source rest
            { m with source_beta_count := m.source_beta_count + 1 }).2 := by
        simp [ingest_json_source, h]
      rw [hstep]
      exact Metrics.le_trans m { m with source_beta_count := m.source_beta_count + 1 } _
        ⟨Nat.le_refl _, Nat.le_refl _, Nat.le_succ _, Nat.le_refl _, Nat.le_refl _, Nat.le_refl _⟩
        (ih _)
    | none =>
      have hstep : (ingest_json_source (it :: rest) m).2 =
          (ingest_json_source rest
            { m with malformed_records := m.malformed_records + 1 }).2 := by
        simp [ingest_json_source, h]
      rw [hstep]
      exact Metrics.le_trans m { m with malformed_records := m.malformed_records + 1 } _
        ⟨Nat.le_refl _, Nat.le_refl _, Nat.le_refl _, Nat.le_refl _, Nat.le_refl _, Nat.le_succ _⟩
        (ih _)

theorem pipeline_step_mono (acc : List Candidate × List Exclusion × Metrics) (c : Claim) :
    Metrics.le acc.2.2 (pipeline_step acc c).2.2 := by
  simp only [pipeline_step]
  split
  · exact ⟨le_refl _, le_refl _, le_refl _, Nat.le_succ _, le_refl _, le_refl _⟩
  · exact ⟨le_refl _, le_refl _, le_refl _, le_refl _, Nat.le_succ _, le_refl _⟩

/-- Fields of the json-loop metrics other than the beta and malformed
counters are untouched. -/
theorem ingest_json_source_snd_fields (items : List BetaItem) (m : Metrics) :
    (ingest_json_source items m).2.total_processed = m.total_processed ∧
    (ingest_json_source items m).2.source_alpha_count = m.source_alpha_count ∧
    (ingest_json_source items m).2.resubmission_candidates = m.resubmission_candidates ∧
    (ingest_json_source items m).2.excluded_claims = m.excluded_claims := by
  induction items generalizing m with
  | nil => exact ⟨rfl, rfl, rfl, rfl⟩
  | cons it rest ih =>
    cases h : ingest_json_record it with
    | some c =>
      have h2 := ih { m with source_beta_count := m.source_beta_count + 1 }
      simp only [ingest_json_source, h]
      exact h2
    | none =>
      have h2 := ih { m with malformed_records := m.malformed_records + 1 }
      simp only [ingest_json_source, h]
      exact h2

/-- Invariant of the eligibility loop: when the candidate and exclusion
counters start equal to the lengths of the output lists, they track them
exactly, every claim lands in exactly one list, and `total_processed` is
untouched. -/
theorem pipeline_loop_spec (cs : List Claim) :
    ∀ (a : List Candidate) (b : List Exclusion) (m : Metrics),
      m.resubmission_candidates = a.length → m.excluded_claims = b.length →
      (pipeline_loop cs (a, b, m)).2.2.resubmission_candidates =
          (pipeline_loop cs (a, b, m)).1.length ∧
      (pipeline_loop cs (a, b, m)).2.2.excluded_claims =
          (pipeline_loop cs (a, b, m)).2.1.length ∧
      (pipeline_loop cs (a, b, m)).1.length + (pipeline_loop cs (a, b, m)).2.1.length =
          a.length + b.length + cs.length ∧
      (pipeline_loop cs (a, b, m)).2.2.total_processed = m.total_processed := by
  induction cs with
  | nil =>
    intro a b m h1 h2
    exact ⟨h1, h2, by simp [pipeline_loop], rfl⟩
  | cons c rest ih =>
    intro a b m h1 h2
    have hloop : pipeline_loop (c :: rest) (a, b, m) =
        pipeline_loop rest (pipeline_step (a, b, m) c) := rfl
    by_cases he : (is_eligible_for_resubmission pipeline_current_date c).1 = true
    · have hs : pipeline_step (a, b, m) c =
          (a ++ [⟨c.claim_id, pyOrStr c.denial_reason "Unknown", c.source_system,
            generate_recommended_changes c⟩], b,
           { m with resubmission_candidates := m.resubmission_candidates + 1 }) := by
        simp only [pipeline_step]
        rw [if_pos he]
      rw [hloop, hs]
      have hg := ih (a ++ [⟨c.claim_id, pyOrStr c.denial_reason "Unknown", c.source_system,
          generate_recommended_changes c⟩]) b
        { m with resubmission_candidates := m.resubmission_candidates + 1 }
        (by simp [h1]) h2
      obtain ⟨g1, g2, g3, g4⟩ := hg
      refine ⟨g1, g2, ?_, g4⟩
      rw [g3]
      simp
      omega
    · have hs : pipeline_step (a, b, m) c =
          (a, b ++ [⟨c.claim_id, (is_eligible_for_resubmission pipeline_current_date c).2,
            c.source_system⟩],
           { m with excluded_claims := m.excluded_claims + 1 }) := by
        simp only [pipeline_step]
        rw [if_neg he]
      rw [hloop, hs]
      have hg := ih a (b ++ [⟨c.claim_id,
          (is_eligible_for_resubmission pipeline_current_date c).2, c.source_system⟩])
        { m with excluded_claims := m.excluded_claims + 1 }
        h1 (by simp [h2])
      obtain ⟨g1, g2, g3, g4⟩ := hg
      refine ⟨g1, g2, ?_, g4⟩
      rw [g3]
      simp
      omega

/-- C10: the orchestrator routes every normalized claim to exactly one of
the two output lists — candidate count plus exclusion count equals
`total_processed` — and no metric counter is ever decremented: the
eligibility step and both ingestion loops only increase the counters. -/
theorem c10_single_routing_and_monotone (rows : List AlphaRow) (items : List BetaItem) :
    ((process_pipeline rows items).1.length + (process_pipeline rows items).2.1.length =
      (process_pipeline rows items).2.2.total_processed) ∧
    (process_pipeline rows items).2.2.resubmission_candidates =
      (process_pipeline rows items).1.length ∧
    (process_pipeline rows items).2.2.excluded_claims =
      (process_pipeline rows items).2.1.length ∧
    (∀ (acc : List Candidate × List Exclusion × Metrics) (c : Claim),
      Metrics.le acc.2.2 (pipeline_step acc c).2.2) ∧
    (∀ (rows2 : List AlphaRow) (m : Metrics), Metrics.le m (ingest_csv_source rows2 m).2) ∧
    (∀ (items2 : List BetaItem) (m : Metrics), Metrics.le m (ingest_json_source items2 m).2) := by
  have hjs := ingest_json_source_snd_fields items (ingest_csv_source rows initMetrics).2
  have hcsv := ingest_csv_source_snd rows initMetrics
  have hr0 : (ingest_json_source items
      (ingest_csv_source rows initMetrics).2).2.resubmission_candidates = 0 := by
    rw [hjs.2.2.1, hcsv]
    rfl
  have he0 : (ingest_json_source items
      (ingest_csv_source rows initMetrics).2).2.excluded_claims = 0 := by
    rw [hjs.2.2.2, hcsv]
    rfl
  have hpp : process_pipeline rows items =
      pipeline_loop
        ((ingest_csv_source rows initMetrics).1 ++
          (ingest_json_source items (ingest_csv_source rows initMetrics).2).1)
        ([], [],
         { (ingest_json_source items (ingest_csv_source rows initMetrics).2).2 with
           total_processed :=
             ((ingest_csv_source rows initMetrics).1 ++
               (ingest_json_source items (ingest_csv_source rows initMetrics).2).1).length }) :=
    rfl
  have hg := pipeline_loop_spec
    ((ingest_csv_source rows initMetrics).1 ++
      (ingest_json_source items (ingest_csv_source rows initMetrics).2).1)
    [] []
    { (ingest_json_source items (ingest_csv_source rows initMetrics).2).2 with
      total_processed :=
        ((ingest_csv_source rows initMetrics).1 ++
          (ingest_json_source items (ingest_csv_source rows initMetrics).2).1).length }
    (by simpa using hr0) (by simpa using he0)
  obtain ⟨g1, g2, g3, g4⟩ := hg
  refine ⟨?_, ?_, ?_, pipeline_step_mono, ingest_csv_source_mono, ingest_json_source_mono⟩
  · rw [hpp, g4]
    simpa using g3
  · rw [hpp]
    exact g1
  · rw [hpp]
    exact g2

end ClaimPipeline
